import Mathlib

/-!
Verification of the browser-client of the modal JWT-auth demo.

The repository ships two client variants:
* `popup.js` — a browser-extension popup that keeps a token pair
  (access token, refresh token, derived expiry) under the single
  `chrome.storage.local` key `auth_tokens`, plus a display username in
  `localStorage`;
* `index.html` — a web page that keeps the two tokens under the
  `localStorage` keys `accessToken` / `refreshToken`, mirrored in two
  script-global variables, and wraps authenticated requests in a
  401-triggered refresh-and-retry helper.

This file embeds both variants shallowly: client storage becomes a record,
each event handler becomes a function from the old state (plus the server's
responses) to the new state together with the list of HTTP calls it issued,
and the JavaScript builtins the code relies on (`String.prototype.trim`,
`String.prototype.split`, `atob`, `JSON.parse`, number coercion of `*`)
are modelled explicitly below.
-/

/-! ## Models of the JavaScript builtins used by the client -/

/-- Whitespace characters recognised by `String.prototype.trim`
(restricted to the ASCII ones; the client only handles ASCII input). -/
def jsWhitespace (c : Char) : Bool :=
  c = ' ' || c = '\t' || c = '\n' || c = '\r' || c = '\x0c'

/-- Model of JavaScript `s.trim()`. -/
def jsTrim (s : String) : String :=
  String.mk (((s.data.dropWhile jsWhitespace).reverse.dropWhile jsWhitespace).reverse)

/-- Helper for `jsSplitDot`: accumulates the current field (reversed). -/
def jsSplitDotAux : List Char → List Char → List String
  | [], acc => [String.mk acc.reverse]
  | c :: cs, acc =>
    if c = '.' then String.mk acc.reverse :: jsSplitDotAux cs []
    else jsSplitDotAux cs (c :: acc)

/-- Model of JavaScript `s.split('.')` (single-character separator, no
regex behaviour): `"" ↦ [""]`, `"a..b" ↦ ["a", "", "b"]`. -/
def jsSplitDot (s : String) : List String := jsSplitDotAux s.data []

/-- Base64 alphabet value of a character (RFC 4648 standard alphabet). -/
def b64Val (c : Char) : Option Nat :=
  if 'A' ≤ c ∧ c ≤ 'Z' then some (c.toNat - 65)
  else if 'a' ≤ c ∧ c ≤ 'z' then some (c.toNat - 97 + 26)
  else if '0' ≤ c ∧ c ≤ '9' then some (c.toNat - 48 + 52)
  else if c = '+' then some 62
  else if c = '/' then some 63
  else none

/-- Decode a list of 6-bit base64 values into bytes.  A trailing group of
two values yields one byte, of three values two bytes; a lone trailing
value is an error (forgiving-base64). -/
def b64Decode : List Nat → Option (List Nat)
  | [] => some []
  | [_] => none
  | [a, b] => some [a * 4 + b / 16]
  | [a, b, c] => some [a * 4 + b / 16, (b % 16) * 16 + c / 4]
  | a :: b :: c :: d :: rest =>
    (b64Decode rest).map
      (fun bs => (a * 4 + b / 16) :: ((b % 16) * 16 + c / 4) :: ((c % 4) * 64 + d) :: bs)

/-- Remove one trailing `=` if present. -/
def b64StripPad (cs : List Char) : List Char :=
  match cs.getLast? with
  | some '=' => cs.dropLast
  | _ => cs

/-- Model of the browser `atob` builtin (the WHATWG forgiving-base64
decode): strip ASCII whitespace, allow up to two trailing `=` when the
length is a multiple of four, reject a leftover length of one, decode the
rest; the resulting bytes are returned as a latin-1 string. -/
def atob (input : String) : Option String :=
  let cs := input.data.filter (fun c => !(jsWhitespace c))
  let cs := if cs.length % 4 = 0 then b64StripPad (b64StripPad cs) else cs
  if cs.length % 4 = 1 then none
  else do
    let vals ← cs.mapM b64Val
    let bytes ← b64Decode vals
    pure (String.mk (bytes.map Char.ofNat))

/-- JSON values as produced by `JSON.parse`.  Numbers are carried as exact
rationals (the client's only arithmetic on them is `* 1000`). -/
inductive Json where
  | null
  | bool (b : Bool)
  | num (q : ℚ)
  | str (s : String)
  | arr (elems : List Json)
  | obj (fields : List (String × Json))

/-- JSON whitespace. -/
def jsonWs (c : Char) : Bool :=
  c = ' ' || c = '\t' || c = '\n' || c = '\r'

/-- Drop leading JSON whitespace. -/
def skipWs : List Char → List Char
  | [] => []
  | c :: cs => if jsonWs c then skipWs cs else c :: cs

/-- Numeric value of a list of decimal digits. -/
def digitsVal (ds : List Char) : Nat :=
  ds.foldl (fun a c => a * 10 + (c.toNat - 48)) 0

/-- Hexadecimal digit value. -/
def hexVal (c : Char) : Option Nat :=
  if '0' ≤ c ∧ c ≤ '9' then some (c.toNat - 48)
  else if 'a' ≤ c ∧ c ≤ 'f' then some (c.toNat - 87)
  else if 'A' ≤ c ∧ c ≤ 'F' then some (c.toNat - 55)
  else none

/-- JSON escape characters after a backslash (other than `\\u`). -/
def escChar (c : Char) : Option Char :=
  if c = '\"' then some '\"'
  else if c = '\\' then some '\\'
  else if c = '/' then some '/'
  else if c = 'b' then some '\x08'
  else if c = 'f' then some '\x0c'
  else if c = 'n' then some '\n'
  else if c = 'r' then some '\r'
  else if c = 't' then some '\t'
  else none

/-- Parse the body of a JSON string (after the opening quote); returns the
decoded characters and the remainder after the closing quote. -/
def parseJStr : List Char → Option (List Char × List Char)
  | [] => none
  | '\"' :: rest => some ([], rest)
  | '\\' :: 'u' :: h1 :: h2 :: h3 :: h4 :: rest => do
    let v1 ← hexVal h1
    let v2 ← hexVal h2
    let v3 ← hexVal h3
    let v4 ← hexVal h4
    let (s, r) ← parseJStr rest
    pure (Char.ofNat (((v1 * 16 + v2) * 16 + v3) * 16 + v4) :: s, r)
  | '\\' :: e :: rest => do
    let ec ← escChar e
    let (s, r) ← parseJStr rest
    pure (ec :: s, r)
  | c :: rest =>
    if c.toNat < 32 then none
    else (parseJStr rest).map (fun p => (c :: p.1, p.2))

/-- Exact rational value of a parsed JSON numeral
`mantissa × 10 ^ (exponent − fracLen)`, built with `mkRat` so that it
evaluates by kernel reduction. -/
def ratOfParts (mantissa : Nat) (fracLen : Nat) (e : Int) : ℚ :=
  let shift : Int := e - (fracLen : Int)
  if 0 ≤ shift then mkRat (mantissa * 10 ^ shift.toNat : Nat) 1
  else mkRat (mantissa : Nat) (10 ^ (-shift).toNat)

/-- Parse the optional exponent part of a JSON numeral (after `e`/`E`). -/
def parseExpPart (mantissa fracLen : Nat) (cs : List Char) : Option (ℚ × List Char) :=
  let signAndRest : Int × List Char :=
    match cs with
    | '+' :: r => (1, r)
    | '-' :: r => (-1, r)
    | _ => (1, cs)
  let ds := signAndRest.2.takeWhile Char.isDigit
  let r := signAndRest.2.dropWhile Char.isDigit
  if ds.isEmpty then none
  else some (ratOfParts mantissa fracLen (signAndRest.1 * (digitsVal ds : Int)), r)

/-- Parse the fraction and exponent parts of a JSON numeral, given the
integer part already read. -/
def parseFracExp (intPart : Nat) (cs : List Char) : Option (ℚ × List Char) :=
  let fracAndRest : Option (List Char) × List Char :=
    match cs with
    | '.' :: rest => (some (rest.takeWhile Char.isDigit), rest.dropWhile Char.isDigit)
    | _ => (none, cs)
  match fracAndRest.1 with
  | some [] => none
  | fd? =>
    let fd := fd?.getD []
    let mantissa : Nat := intPart * 10 ^ fd.length + digitsVal fd
    match fracAndRest.2 with
    | 'e' :: rest => parseExpPart mantissa fd.length rest
    | 'E' :: rest => parseExpPart mantissa fd.length rest
    | rest => some (ratOfParts mantissa fd.length 0, rest)

/-- Parse a JSON numeral after an optional leading minus sign. -/
def parseNumAfterSign : List Char → Option (ℚ × List Char)
  | '0' :: rest => parseFracExp 0 rest
  | c :: rest =>
    if c.isDigit then
      parseFracExp (digitsVal (c :: rest.takeWhile Char.isDigit)) (rest.dropWhile Char.isDigit)
    else none
  | [] => none

/-- Parse a JSON numeral. -/
def parseNumber (cs : List Char) : Option (ℚ × List Char) :=
  match cs with
  | '-' :: rest => (parseNumAfterSign rest).map (fun p => (-p.1, p.2))
  | _ => parseNumAfterSign cs

mutual

/-- Fuel-indexed JSON value parser (recursive descent). -/
def parseVal : Nat → List Char → Option (Json × List Char)
  | 0, _ => none
  | fuel + 1, cs =>
    match skipWs cs with
    | 'n' :: 'u' :: 'l' :: 'l' :: rest => some (.null, rest)
    | 't' :: 'r' :: 'u' :: 'e' :: rest => some (.bool true, rest)
    | 'f' :: 'a' :: 'l' :: 's' :: 'e' :: rest => some (.bool false, rest)
    | '\"' :: rest => (parseJStr rest).map (fun p => (.str (String.mk p.1), p.2))
    | '\x5b' :: rest =>
      (match skipWs rest with
       | '\x5d' :: r2 => some (.arr [], r2)
       | _ => (parseElems fuel rest).map (fun p => (.arr p.1, p.2)))
    | '\x7b' :: rest =>
      (match skipWs rest with
       | '\x7d' :: r2 => some (.obj [], r2)
       | _ => (parseFields fuel rest).map (fun p => (.obj p.1, p.2)))
    | cs' => (parseNumber cs').map (fun p => (.num p.1, p.2))

/-- Parse the comma-separated elements of a non-empty JSON array, up to and
including the closing bracket. -/
def parseElems : Nat → List Char → Option (List Json × List Char)
  | 0, _ => none
  | fuel + 1, cs => do
    let (v, r) ← parseVal fuel cs
    match skipWs r with
    | ',' :: r2 => (parseElems fuel r2).map (fun p => (v :: p.1, p.2))
    | '\x5d' :: r2 => some ([v], r2)
    | _ => none

/-- Parse the comma-separated members of a non-empty JSON object, up to and
including the closing brace. -/
def parseFields : Nat → List Char → Option (List (String × Json) × List Char)
  | 0, _ => none
  | fuel + 1, cs => do
    match skipWs cs with
    | '\"' :: rest => do
      let (key, r) ← parseJStr rest
      match skipWs r with
      | ':' :: r2 => do
        let (v, r3) ← parseVal fuel r2
        match skipWs r3 with
        | ',' :: r4 => (parseFields fuel r4).map (fun p => ((String.mk key, v) :: p.1, p.2))
        | '\x7d' :: r4 => some ([(String.mk key, v)], r4)
        | _ => none
      | _ => none
    | _ => none

end

/-- Model of `JSON.parse`: parse one value and require that only whitespace
remains.  `none` models a thrown `SyntaxError`. -/
def jsonParse (s : String) : Option Json :=
  match parseVal (2 * s.length + 2) s.data with
  | some (v, rest) => if skipWs rest = [] then some v else none
  | none => none

/-- Decidable equality for `Except`, used to evaluate the client functions
on concrete inputs. -/
instance {α β : Type} [DecidableEq α] [DecidableEq β] : DecidableEq (Except α β) := fun a b =>
  match a, b with
  | Except.ok x, Except.ok y =>
    if h : x = y then isTrue (congrArg Except.ok h)
    else isFalse (fun hh => h (Except.ok.inj hh))
  | Except.error x, Except.error y =>
    if h : x = y then isTrue (congrArg Except.error h)
    else isFalse (fun hh => h (Except.error.inj hh))
  | Except.ok _, Except.error _ => isFalse (fun hh => Except.noConfusion hh)
  | Except.error _, Except.ok _ => isFalse (fun hh => Except.noConfusion hh)

/-- A JavaScript number as the client can hold one: an exact rational (all
values actually produced here are integers times a power of ten) or `NaN`. -/
inductive JsNum where
  | num (q : ℚ)
  | nan
deriving Repr, DecidableEq

/-- Last-binding lookup in a JSON object, as `JSON.parse` keeps the last of
duplicate keys and property access reads that one. -/
def jsonLookupLast (fields : List (String × Json)) (key : String) : Option Json :=
  match fields with
  | [] => none
  | (k, v) :: rest =>
    match jsonLookupLast rest key with
    | some w => some w
    | none => if k = key then some v else none

/-- Model of JavaScript `Number(s)` for the string operand of `*`,
restricted to decimal numerals (the client never multiplies a hex or
`Infinity` string): trimmed empty string is `0`, otherwise the standard
decimal reading, `NaN` on anything else. -/
def jsStringToNumber (s : String) : Option ℚ :=
  let cs := (jsTrim s).data
  if cs = [] then some 0
  else
    match parseNumber cs with
    | some (q, []) => some q
    | _ => none

/-- Model of the JavaScript expression `v * 1000` where `v` is a property
read off a `JSON.parse` result: `none` is `undefined` (absent property).
Coercions follow `ToNumber`; arrays and objects are coerced to `NaN`
(an abstraction of `ToPrimitive`: no token payload in the claims carries
an array-valued `exp`). -/
def jsMul1000 : Option Json → JsNum
  | none => .nan
  | some .null => .num 0
  | some (.bool b) => .num (if b then 1000 else 0)
  | some (.num q) => .num (q * 1000)
  | some (.str s) =>
    match jsStringToNumber s with
    | some q => .num (q * 1000)
    | none => .nan
  | some (.arr _) => .nan
  | some (.obj _) => .nan

/-- Model of the JavaScript comparison `t > e` where `e` is a stored
expiry: comparisons against `NaN` are false. -/
def jsGtNum (t : Int) (e : JsNum) : Bool :=
  match e with
  | .num q => decide ((t : ℚ) > q)
  | .nan => false

/-! ## HTTP model

Each `fetch` the client performs is recorded as an `HttpCall` (for the
extension) or `PageCall` (for the web page).  The server is an oracle
mapping a call to either a thrown error (network failure, or a failure of
`response.json()`) or a `Response`.  The client only ever reads the
response's HTTP status, `ok` flag and the four JSON body fields below, so
the body is modelled as that record. -/

/-- An HTTP response as observed by the client. -/
structure Response where
  httpStatus : Nat
  status : String
  message : String
  access_token : String
  refresh_token : String
deriving Repr, DecidableEq

/-- `response.ok`: status in the 200–299 range. -/
def Response.ok (r : Response) : Bool :=
  decide (200 ≤ r.httpStatus) && decide (r.httpStatus ≤ 299)

/-- An HTTP request issued by `popup.js`. -/
inductive HttpCall where
  | register (username password : String)
  | authenticate (username password : String)
  | refresh (refresh_token : String)
  | protectedReq (authHeader : String)
deriving Repr, DecidableEq

/-- The server oracle for `popup.js`; `Except.error e` models a rejected
`fetch` (or a `response.json()` failure), with `e` the error message. -/
abbrev Server := HttpCall → Except String Response

/-- An HTTP request issued by the `index.html` page.  The wrapped request
of `authenticatedFetch` carries its URL and the Authorization header. -/
inductive PageCall where
  | register (username password : String)
  | authenticate (username password : String)
  | refresh (refresh_token : String)
  | request (url : String) (authHeader : String)
deriving Repr, DecidableEq

/-- The server oracle for the `index.html` page. -/
abbrev PageServer := PageCall → Except String Response

/-- The string `getTokenExpiry` hands to `atob`: the second dot-separated
segment of the token, or — by JavaScript string coercion of the
`undefined` produced by `token.split('.')[1]` when there is no second
segment — the literal string `"undefined"`. -/
def payloadSegment (token : String) : String :=
  match (jsSplitDot token)[1]? with
  | some s => s
  | none => "undefined"

namespace Popup

/-- The token pair as `popup.js` stores it under the single
`chrome.storage.local` key `auth_tokens`. -/
structure Tokens where
  access_token : String
  refresh_token : String
  access_token_expiry : JsNum
deriving Repr, DecidableEq

/-- Client-visible state of the extension popup: the `auth_tokens` entry of
`chrome.storage.local`, the `username` entry of `localStorage`, and the
status line last shown (message and CSS class). -/
structure State where
  auth_tokens : Option Tokens
  username : Option String
  statusMessage : Option (String × String)
deriving Repr, DecidableEq

/-- `setStatus(message, type)`: shows `message` with class `error` when the
type is `'error'` and `success` otherwise (the 5-second auto-hide timer is
not modelled; it only removes the CSS class later). -/
def setStatus (st : State) (message kind : String) : State :=
  { st with statusMessage := some (message, if kind = "error" then "error" else "success") }

/-- `getTokenExpiry(token)`: decode the second dot-separated segment of the
token with `atob`, `JSON.parse` it, and return `payload.exp * 1000`.
`Except.error` models a thrown exception: `atob` on a bad segment (a
missing segment is the *string* `"undefined"` by JS coercion, which fails
base64 decoding), `JSON.parse` on bad input, or reading `.exp` off
`null`. -/
def getTokenExpiry (token : String) : Except String JsNum :=
  match atob (payloadSegment token) with
  | none => Except.error "InvalidCharacterError"
  | some decoded =>
    match jsonParse decoded with
    | none => Except.error "SyntaxError"
    | some .null => Except.error "TypeError"
    | some (.obj fields) => Except.ok (jsMul1000 (jsonLookupLast fields "exp"))
    | some _ => Except.ok (jsMul1000 none)

/-- `storeTokens(accessToken, refreshToken)`: build the record with the
derived expiry and write it under `auth_tokens`.  An exception in
`getTokenExpiry` propagates before anything is written. -/
def storeTokens (accessToken refreshToken : String) (st : State) : Except String State :=
  match getTokenExpiry accessToken with
  | Except.error e => Except.error e
  | Except.ok expiry =>
    Except.ok { st with auth_tokens := some ⟨accessToken, refreshToken, expiry⟩ }

/-- `getStoredTokens()`: read the `auth_tokens` entry (the
`chrome.runtime.lastError` rejection path is not modelled: storage is
taken as reliable). -/
def getStoredTokens (st : State) : Option Tokens :=
  st.auth_tokens

/-- The `register` click handler.  Returns the new state and the list of
HTTP calls issued. -/
def register (usernameField passwordField : String) (server : Server) (st : State) :
    State × List HttpCall :=
  let username := jsTrim usernameField
  let password := passwordField
  if username = "" ∨ password = "" then
    (setStatus st "Please enter a username and password." "error", [])
  else if password.length < 8 then
    (setStatus st "Password must be at least 8 characters long." "error", [])
  else
    let call := HttpCall.register username password
    match server call with
    | Except.error e => (setStatus st ("Registration failed: " ++ e) "error", [call])
    | Except.ok result =>
      if result.ok ∧ result.status = "ok" then
        (setStatus { st with username := some username } "Registration successful." "success",
         [call])
      else
        (setStatus st ("Registration failed: " ++ result.message) "error", [call])

/-- The `login` click handler. -/
def login (usernameField passwordField : String) (server : Server) (st : State) :
    State × List HttpCall :=
  let username := jsTrim usernameField
  let password := passwordField
  if username = "" ∨ password = "" then
    (setStatus st "Please enter your username and password." "error", [])
  else
    let call := HttpCall.authenticate username password
    match server call with
    | Except.error e => (setStatus st ("Authentication failed: " ++ e) "error", [call])
    | Except.ok result =>
      if result.ok ∧ result.status = "ok" then
        match storeTokens result.access_token result.refresh_token st with
        | Except.ok st' => (setStatus st' "Authentication successful." "success", [call])
        | Except.error e => (setStatus st ("Authentication failed: " ++ e) "error", [call])
      else
        (setStatus st ("Authentication failed: " ++ result.message) "error", [call])

/-- The `logout` click handler: remove `auth_tokens`, remove the stored
username, show the success status. -/
def logout (st : State) : State :=
  setStatus { st with auth_tokens := none, username := none } "Logged out successfully." "success"

/-- `refreshAccessToken(refreshToken)`: POST to `/refresh`; on an OK
response with status `'ok'` store the new pair and return it, otherwise
throw.  Returns the thrown-or-returned value, the new state, and the calls
issued (the refresh call happened even when the function throws). -/
def refreshAccessToken (refreshToken : String) (server : Server) (st : State) :
    Except String (String × String) × State × List HttpCall :=
  let call := HttpCall.refresh refreshToken
  match server call with
  | Except.error e => (Except.error e, st, [call])
  | Except.ok result =>
    if result.ok ∧ result.status = "ok" then
      match storeTokens result.access_token result.refresh_token st with
      | Except.error e => (Except.error e, st, [call])
      | Except.ok st' =>
        (Except.ok (result.access_token, result.refresh_token), st', [call])
    else
      (Except.error ("Failed to refresh token: " ++ result.message), st, [call])

/-- `getAccessToken()`: throw when nothing is stored; refresh first when
`Date.now()` is greater than the stored expiry; otherwise return the
cached access token without any HTTP call. -/
def getAccessToken (now : Int) (server : Server) (st : State) :
    Except String String × State × List HttpCall :=
  match st.auth_tokens with
  | none => (Except.error "No tokens found. Please login.", st, [])
  | some tokens =>
    if jsGtNum now tokens.access_token_expiry then
      match refreshAccessToken tokens.refresh_token server st with
      | (Except.error e, st', calls) => (Except.error e, st', calls)
      | (Except.ok newTokens, st', calls) => (Except.ok newTokens.1, st', calls)
    else
      (Except.ok tokens.access_token, st, [])

/-- The `accessProtected` click handler: obtain an access token (possibly
refreshing), GET the protected resource with the bearer header, and render
the outcome; any thrown error becomes an error status. -/
def accessProtected (now : Int) (server : Server) (st : State) :
    State × List HttpCall :=
  match getAccessToken now server st with
  | (Except.error e, st', calls) => (setStatus st' e "error", calls)
  | (Except.ok accessToken, st', calls) =>
    let call := HttpCall.protectedReq ("Bearer " ++ accessToken)
    match server call with
    | Except.error e => (setStatus st' e "error", calls ++ [call])
    | Except.ok result =>
      if result.ok ∧ result.status = "ok" then
        (setStatus st' result.message "success", calls ++ [call])
      else
        (setStatus st' ("Failed to access protected resource: " ++ result.message) "error",
         calls ++ [call])

end Popup

namespace Page

/-- Client-visible state of the `index.html` page: the two script-global
token variables, their `localStorage` mirrors, and the `username`
`localStorage` entry. -/
structure State where
  accessToken : String
  refreshToken : String
  lsAccessToken : Option String
  lsRefreshToken : Option String
  lsUsername : Option String
deriving Repr, DecidableEq

/-- `storeTokens(access, refresh)`: set both globals and both
`localStorage` keys. -/
def storeTokens (access refresh : String) (st : State) : State :=
  { st with
    accessToken := access
    refreshToken := refresh
    lsAccessToken := some access
    lsRefreshToken := some refresh }

/-- `loadTokens()`: copy the `localStorage` keys into the globals,
defaulting missing entries to the empty string. -/
def loadTokens (st : State) : State :=
  { st with
    accessToken := st.lsAccessToken.getD ""
    refreshToken := st.lsRefreshToken.getD "" }

/-- `clearTokens()`: reset both globals and remove both `localStorage`
keys. -/
def clearTokens (st : State) : State :=
  { st with
    accessToken := ""
    refreshToken := ""
    lsAccessToken := none
    lsRefreshToken := none }

/-- `isAuthenticated()`: truthiness of the access-token global. -/
def isAuthenticated (st : State) : Bool :=
  st.accessToken ≠ ""

/-- `refreshAccessToken()`: return `false` at once when no refresh token is
held; otherwise POST to `/refresh` and, on an OK response, store the new
pair and return `true`; on a non-OK response or a thrown error clear the
tokens and return `false`. -/
def refreshAccessToken (server : PageServer) (st : State) :
    Bool × State × List PageCall :=
  if st.refreshToken = "" then (false, st, [])
  else
    let call := PageCall.refresh st.refreshToken
    match server call with
    | Except.error _ => (false, clearTokens st, [call])
    | Except.ok resp =>
      if resp.ok then (true, storeTokens resp.access_token resp.refresh_token st, [call])
      else (false, clearTokens st, [call])

/-- `logout()`: clear the tokens and the stored username (the section
show/hide calls touch only the DOM). -/
def logout (st : State) : State :=
  { clearTokens st with lsUsername := none }

/-- `authenticatedFetch(url, options)`: attach `Authorization: Bearer
<accessToken>`, fetch; on a 401 response attempt one token refresh and
either retry once with the new token or alert, log out and throw
`'Authentication required'`.  Returns the response (or thrown error), the
new state, and the calls issued in order. -/
def authenticatedFetch (url : String) (server : PageServer) (st : State) :
    Except String Response × State × List PageCall :=
  let call1 := PageCall.request url ("Bearer " ++ st.accessToken)
  match server call1 with
  | Except.error e => (Except.error e, st, [call1])
  | Except.ok resp =>
    if resp.httpStatus = 401 then
      match refreshAccessToken server st with
      | (true, st', calls) =>
        let call2 := PageCall.request url ("Bearer " ++ st'.accessToken)
        match server call2 with
        | Except.error e => (Except.error e, st', call1 :: calls ++ [call2])
        | Except.ok resp2 => (Except.ok resp2, st', call1 :: calls ++ [call2])
      | (false, st', calls) =>
        (Except.error "Authentication required", logout st', call1 :: calls)
    else
      (Except.ok resp, st, [call1])

/-- The page's `register(username, password)` helper: one POST, no state
change, `true` exactly on an OK response. -/
def register (username password : String) (server : PageServer) (st : State) :
    Bool × State × List PageCall :=
  let call := PageCall.register username password
  match server call with
  | Except.error _ => (false, st, [call])
  | Except.ok resp => (resp.ok, st, [call])

/-- The page's `login(username, password)` helper: POST to
`/authenticate`; on an OK response store the token pair and the username
and return `true`. -/
def login (username password : String) (server : PageServer) (st : State) :
    Bool × State × List PageCall :=
  let call := PageCall.authenticate username password
  match server call with
  | Except.error _ => (false, st, [call])
  | Except.ok data =>
    if data.ok then
      (true, { storeTokens data.access_token data.refresh_token st with
               lsUsername := some username }, [call])
    else
      (false, st, [call])

end Page

/-! ## Spec-side notions and operation wrappers used in the claims -/

/-- The `exp` claim of a token as the spec describes it: decode the second
dot-separated segment of the token as base64, parse it as JSON, and read
the `exp` member when the result is an object holding a number there. -/
def expClaim (token : String) : Option ℚ :=
  match (jsSplitDot token)[1]? with
  | none => none
  | some seg =>
    match atob seg with
    | none => none
    | some decoded =>
      match jsonParse decoded with
      | some (Json.obj fields) =>
        match jsonLookupLast fields "exp" with
        | some (Json.num q) => some q
        | _ => none
      | _ => none

/-- A token whose payload segment makes `getTokenExpiry` throw: `atob`
fails on it, or the decoded bytes do not parse as JSON, or they parse to
JSON `null` (property access on `null` throws). -/
def segmentRejected (token : String) : Prop :=
  match atob (payloadSegment token) with
  | none => True
  | some decoded => jsonParse decoded = none ∨ jsonParse decoded = some Json.null

/-- Is a call a hit on the `/refresh` endpoint? -/
def HttpCall.isRefresh : HttpCall → Bool
  | .refresh _ => true
  | _ => false

/-- Is a call a hit on the protected resource? -/
def HttpCall.isProtectedReq : HttpCall → Bool
  | .protectedReq _ => true
  | _ => false

/-- Is a page call a hit on the `/refresh` endpoint? -/
def PageCall.isRefresh : PageCall → Bool
  | .refresh _ => true
  | _ => false

/-- One user-triggered operation of the extension popup. -/
inductive PopupOp where
  | register (username password : String)
  | login (username password : String)
  | logout
  | accessProtected (now : Int)

/-- Run one popup operation, returning the new state and the HTTP calls
issued. -/
def runPopupOp : PopupOp → Server → Popup.State → Popup.State × List HttpCall
  | PopupOp.register u p, server, st => Popup.register u p server st
  | PopupOp.login u p, server, st => Popup.login u p server st
  | PopupOp.logout, _, st => (Popup.logout st, [])
  | PopupOp.accessProtected now, server, st => Popup.accessProtected now server st

/-- One operation of the `index.html` page that can touch the token
store. -/
inductive PageOp where
  | register (username password : String)
  | login (username password : String)
  | logout
  | loadTokens
  | refreshTokens
  | authFetch (url : String)

/-- Run one page operation, returning the new state and the HTTP calls
issued. -/
def runPageOp : PageOp → PageServer → Page.State → Page.State × List PageCall
  | PageOp.register u p, server, st =>
    ((Page.register u p server st).2.1, (Page.register u p server st).2.2)
  | PageOp.login u p, server, st =>
    ((Page.login u p server st).2.1, (Page.login u p server st).2.2)
  | PageOp.logout, _, st => (Page.logout st, [])
  | PageOp.loadTokens, _, st => (Page.loadTokens st, [])
  | PageOp.refreshTokens, server, st =>
    ((Page.refreshAccessToken server st).2.1, (Page.refreshAccessToken server st).2.2)
  | PageOp.authFetch url, server, st =>
    ((Page.authenticatedFetch url server st).2.1, (Page.authenticatedFetch url server st).2.2)

/-- After a popup operation, the stored token entry is the old one, is
gone, or is a whole pair taken from a single server response together with
its derived expiry — never a partial update. -/
def popupPairWholesale (server : Server) (st st' : Popup.State) : Prop :=
  st'.auth_tokens = st.auth_tokens ∨ st'.auth_tokens = none ∨
  ∃ c resp e, server c = Except.ok resp ∧
    Popup.getTokenExpiry resp.access_token = Except.ok e ∧
    st'.auth_tokens = some ⟨resp.access_token, resp.refresh_token, e⟩

/-- After a page operation, the two stored token keys are the old pair,
are both absent, or are both taken from a single server response — never a
partial update. -/
def pagePairWholesale (server : PageServer) (st st' : Page.State) : Prop :=
  (st'.lsAccessToken = st.lsAccessToken ∧ st'.lsRefreshToken = st.lsRefreshToken) ∨
  (st'.lsAccessToken = none ∧ st'.lsRefreshToken = none) ∨
  ∃ c resp, server c = Except.ok resp ∧
    st'.lsAccessToken = some resp.access_token ∧
    st'.lsRefreshToken = some resp.refresh_token

/-! ## Concrete fixtures for witnesses and counterexamples -/

/-- A well-formed demo access token: its payload segment is the base64 of
a JSON object whose `exp` claim is `123`. -/
def demoToken : String := "h.eyJleHAiOjEyM30.s"

/-- Empty popup client state. -/
def popupSt0 : Popup.State := ⟨none, none, none⟩

/-- Popup state holding a token pair whose stored expiry `0` is already in
the past at any positive time. -/
def popupStExpired : Popup.State := ⟨some ⟨"A", "R", JsNum.num 0⟩, some "alice", none⟩

/-- Popup state holding a token pair that is still fresh at time `5`. -/
def popupStFresh : Popup.State := ⟨some ⟨"A", "R", JsNum.num 100⟩, some "alice", none⟩

/-- A server that answers every call with an OK `'ok'` response carrying
the demo token pair. -/
def serverAllOk : Server :=
  fun _ => Except.ok ⟨200, "ok", "Hello, alice!", demoToken, "R2"⟩

/-- A server that rejects refresh calls with a 400 and answers everything
else OK. -/
def serverRefreshFails : Server := fun c =>
  match c with
  | HttpCall.refresh _ => Except.ok ⟨400, "error", "Invalid refresh token.", "", ""⟩
  | _ => Except.ok ⟨200, "ok", "Hello, alice!", demoToken, "R2"⟩

/-- A server whose authenticate response is OK with status `'ok'` but
carries an access token with no decodable payload segment. -/
def serverBadToken : Server :=
  fun _ => Except.ok ⟨200, "ok", "", "x", "R2"⟩

/-- Page state holding an access token but no refresh token. -/
def pageStNoRefresh : Page.State := ⟨"A", "", some "A", none, some "alice"⟩

/-- Page state holding an access and a refresh token. -/
def pageStTok : Page.State := ⟨"A", "R", some "A", some "R", some "alice"⟩

/-- A page server that answers every wrapped request with 401 and every
other call OK. -/
def pageServer401 : PageServer := fun c =>
  match c with
  | PageCall.request _ _ => Except.ok ⟨401, "error", "unauthorized", "", ""⟩
  | _ => Except.ok ⟨200, "ok", "", "NA", "NR"⟩

/-- A page server on which the stale bearer header gets a 401, the refresh
succeeds with a new pair, and the retried request succeeds. -/
def pageServer401ThenOk : PageServer := fun c =>
  match c with
  | PageCall.request _ h =>
    if h = "Bearer A" then Except.ok ⟨401, "error", "expired", "", ""⟩
    else Except.ok ⟨200, "ok", "hi", "", ""⟩
  | PageCall.refresh _ => Except.ok ⟨200, "ok", "", "NA", "NR"⟩
  | _ => Except.ok ⟨200, "ok", "", "", ""⟩

/-- A page server on which the wrapped request gets a 401 and the refresh
gets a 400. -/
def pageServerRefreshFails : PageServer := fun c =>
  match c with
  | PageCall.refresh _ => Except.ok ⟨400, "error", "bad refresh", "", ""⟩
  | PageCall.request _ _ => Except.ok ⟨401, "error", "expired", "", ""⟩
  | _ => Except.ok ⟨200, "ok", "", "", ""⟩

/-! ## Helper lemmas -/

/-- `setStatus` only touches the status line. -/
theorem setStatus_auth_tokens (st : Popup.State) (m k : String) :
    (Popup.setStatus st m k).auth_tokens = st.auth_tokens := rfl

/-- `setStatus` leaves the stored username unchanged. -/
theorem setStatus_username (st : Popup.State) (m k : String) :
    (Popup.setStatus st m k).username = st.username := rfl

/-- When the spec-side reading of the `exp` claim of a token is the number
`q`, `getTokenExpiry` returns `q * 1000` without throwing. -/
theorem getTokenExpiry_of_expClaim (token : String) (q : ℚ)
    (h : expClaim token = some q) :
    Popup.getTokenExpiry token = Except.ok (JsNum.num (q * 1000)) := by
  unfold expClaim at h
  unfold Popup.getTokenExpiry payloadSegment
  cases hseg : (jsSplitDot token)[1]? with
  | none => simp only [hseg] at h; exact Option.noConfusion h
  | some seg =>
    simp only [hseg] at h ⊢
    cases hat : atob seg with
    | none => simp only [hat] at h; exact Option.noConfusion h
    | some decoded =>
      simp only [hat] at h ⊢
      cases hj : jsonParse decoded with
      | none => simp only [hj] at h; exact Option.noConfusion h
      | some v =>
        simp only [hj] at h ⊢
        cases v with
        | obj fields =>
          cases hl : jsonLookupLast fields "exp" with
          | none => simp only [hl] at h; exact Option.noConfusion h
          | some w => cases w <;> simp_all [jsMul1000]
        | null => exact Option.noConfusion h
        | bool b => exact Option.noConfusion h
        | num q' => exact Option.noConfusion h
        | str s => exact Option.noConfusion h
        | arr l => exact Option.noConfusion h

/-! ## Claim theorems -/

/-- C3: for every authenticate call whose response is OK with status
`'ok'` and whose access token's unverified payload carries the number `q`
as its `exp` claim, the client afterwards stores exactly the response's
token pair with `access_token_expiry = q * 1000`. -/
theorem login_stores_pair_with_decoded_expiry
    (u p : String) (server : Server) (st : Popup.State) (resp : Response) (q : ℚ)
    (hvalid : ¬(jsTrim u = "" ∨ p = ""))
    (hresp : server (HttpCall.authenticate (jsTrim u) p) = Except.ok resp)
    (hok : resp.ok = true) (hst : resp.status = "ok")
    (hexp : expClaim resp.access_token = some q) :
    (Popup.login u p server st).1.auth_tokens =
      some ⟨resp.access_token, resp.refresh_token, JsNum.num (q * 1000)⟩ := by
  unfold Popup.login
  simp only [if_neg hvalid, hresp]
  rw [if_pos ⟨hok, hst⟩]
  unfold Popup.storeTokens
  rw [getTokenExpiry_of_expClaim _ _ hexp]
  rfl

/-- C3 witness: logging in as alice against a server returning the demo
token stores the pair with expiry `123 * 1000`. -/
theorem login_stores_pair_with_decoded_expiry_witness :
    (Popup.login "alice" "password1" serverAllOk popupSt0).1.auth_tokens =
      some ⟨demoToken, "R2", JsNum.num (123 * 1000)⟩ :=
  login_stores_pair_with_decoded_expiry "alice" "password1" serverAllOk popupSt0
    ⟨200, "ok", "Hello, alice!", demoToken, "R2"⟩ 123
    (by with_unfolding_all decide) rfl rfl rfl (by with_unfolding_all rfl)

/-- C4: logout removes the token pair and the stored username, and from
any state with no stored tokens a protected-resource attempt issues no
HTTP call and fails with the no-tokens error. -/
theorem logout_clears_state_and_blocks_network
    (st : Popup.State) (now : Int) (server : Server) :
    (Popup.logout st).auth_tokens = none ∧
    (Popup.logout st).username = none ∧
    (∀ st' : Popup.State, st'.auth_tokens = none →
       (Popup.accessProtected now server st').2 = [] ∧
       (Popup.accessProtected now server st').1.statusMessage =
         some ("No tokens found. Please login.", "error")) := by
  refine ⟨rfl, rfl, fun st' h => ?_⟩
  unfold Popup.accessProtected Popup.getAccessToken
  rw [h]
  exact ⟨rfl, rfl⟩

/-- C4 witness: the empty state issues no call and shows the no-tokens
error. -/
theorem logout_clears_state_and_blocks_network_witness :
    (Popup.accessProtected 5 serverAllOk popupSt0).2 = [] ∧
    (Popup.accessProtected 5 serverAllOk popupSt0).1.statusMessage =
      some ("No tokens found. Please login.", "error") :=
  (logout_clears_state_and_blocks_network popupSt0 5 serverAllOk).2.2 popupSt0 rfl

/-- C5 counterexample: the popup `login` handler performs no password
length check — logging in with the 5-character password `short` issues
the authenticate network call, where the claim requires a client-side
rejection with no network call. -/
theorem short_password_login_reaches_network :
    "short".length < 8 ∧
    (Popup.login "alice" "short" serverAllOk popupSt0).2 =
      [HttpCall.authenticate "alice" "short"] := by
  constructor
  · decide
  · with_unfolding_all rfl

/-- C5 (amended): both handlers reject empty inputs with an error status
and no network call; the 8-character password minimum is enforced by
`register` alone, which rejects a short password with an error status and
no network call; `login` sends any non-empty password — short ones
included — to the authenticate endpoint. -/
theorem auth_action_validation (u p : String) (server : Server) (st : Popup.State) :
    ((jsTrim u = "" ∨ p = "") →
       (Popup.register u p server st).2 = [] ∧
       (Popup.register u p server st).1.statusMessage =
         some ("Please enter a username and password.", "error") ∧
       (Popup.login u p server st).2 = [] ∧
       (Popup.login u p server st).1.statusMessage =
         some ("Please enter your username and password.", "error")) ∧
    (¬(jsTrim u = "" ∨ p = "") → p.length < 8 →
       (Popup.register u p server st).2 = [] ∧
       (Popup.register u p server st).1.statusMessage =
         some ("Password must be at least 8 characters long.", "error")) ∧
    (¬(jsTrim u = "" ∨ p = "") →
       (Popup.login u p server st).2 = [HttpCall.authenticate (jsTrim u) p]) := by
  refine ⟨?_, ?_, ?_⟩
  · intro h
    unfold Popup.register Popup.login
    simp only [if_pos h]
    exact ⟨trivial, rfl, trivial, rfl⟩
  · intro h hlen
    unfold Popup.register
    simp only [if_neg h, if_pos hlen]
    exact ⟨trivial, rfl⟩
  · intro h
    unfold Popup.login
    simp only [if_neg h]
    cases hc : server (HttpCall.authenticate (jsTrim u) p) with
    | error e => rfl
    | ok result =>
      simp only []
      by_cases hok : (result.ok = true) ∧ result.status = "ok"
      · simp only [if_pos hok]
        cases hst : Popup.storeTokens result.access_token result.refresh_token st <;> rfl
      · simp only [if_neg hok]

/-- C5 witness: the empty username is rejected with the error status and
no call by both handlers, a short password is rejected by register with
the error status and no call, and login sends both a short and a long
non-empty password onto the network. -/
theorem auth_action_validation_witness :
    (Popup.register "" "x" serverAllOk popupSt0).2 = [] ∧
    (Popup.register "" "x" serverAllOk popupSt0).1.statusMessage =
      some ("Please enter a username and password.", "error") ∧
    (Popup.login "" "x" serverAllOk popupSt0).2 = [] ∧
    (Popup.login "" "x" serverAllOk popupSt0).1.statusMessage =
      some ("Please enter your username and password.", "error") ∧
    (Popup.register "alice" "short" serverAllOk popupSt0).2 = [] ∧
    (Popup.register "alice" "short" serverAllOk popupSt0).1.statusMessage =
      some ("Password must be at least 8 characters long.", "error") ∧
    (Popup.login "alice" "short" serverAllOk popupSt0).2 =
      [HttpCall.authenticate (jsTrim "alice") "short"] ∧
    (Popup.login "alice" "password1" serverAllOk popupSt0).2 =
      [HttpCall.authenticate (jsTrim "alice") "password1"] := by
  have h1 := (auth_action_validation "" "x" serverAllOk popupSt0).1
    (Or.inl (by with_unfolding_all rfl))
  have h2 := (auth_action_validation "alice" "short" serverAllOk popupSt0).2.1
    (by with_unfolding_all decide) (by decide)
  have h3 := (auth_action_validation "alice" "short" serverAllOk popupSt0).2.2
    (by with_unfolding_all decide)
  have h4 := (auth_action_validation "alice" "password1" serverAllOk popupSt0).2.2
    (by with_unfolding_all decide)
  exact ⟨h1.1, h1.2.1, h1.2.2.1, h1.2.2.2, h2.1, h2.2, h3, h4⟩

/-- C6: with a stored token pair whose expiry is not in the past, a
protected-resource request issues exactly one HTTP call — the protected
request itself, carrying the cached access token — with no refresh and no
retry. -/
theorem fresh_token_single_call
    (st : Popup.State) (tokens : Popup.Tokens) (now : Int) (server : Server)
    (htok : st.auth_tokens = some tokens)
    (hfresh : jsGtNum now tokens.access_token_expiry = false) :
    (Popup.accessProtected now server st).2 =
      [HttpCall.protectedReq ("Bearer " ++ tokens.access_token)] := by
  unfold Popup.accessProtected Popup.getAccessToken
  rw [htok]
  simp only [hfresh, Bool.false_eq_true, if_false]
  cases hc : server (HttpCall.protectedReq ("Bearer " ++ tokens.access_token)) with
  | error e => rfl
  | ok result =>
    simp only []
    by_cases hok : (result.ok = true) ∧ result.status = "ok"
    · simp only [if_pos hok]; rfl
    · simp only [if_neg hok]; rfl

/-- C6 witness: at time 5 with stored expiry 100, exactly the one
protected call is made. -/
theorem fresh_token_single_call_witness :
    (Popup.accessProtected 5 serverAllOk popupStFresh).2 =
      [HttpCall.protectedReq ("Bearer " ++ "A")] :=
  fresh_token_single_call popupStFresh ⟨"A", "R", JsNum.num 100⟩ 5 serverAllOk rfl
    (by with_unfolding_all rfl)

/-- C9: the token-cache contract.  In the extension, a successful store
persists the pair together with the expiry derived from the access token,
a load after it returns exactly that record, and a load after logout
returns nothing.  In the page, a load after `storeTokens` returns the
stored pair and a load after `clearTokens` returns the empty strings. -/
theorem token_cache_contract :
    (∀ (a r : String) (st st' : Popup.State),
       Popup.storeTokens a r st = Except.ok st' →
       ∃ e, Popup.getTokenExpiry a = Except.ok e ∧
            Popup.getStoredTokens st' = some ⟨a, r, e⟩) ∧
    (∀ st : Popup.State, Popup.getStoredTokens (Popup.logout st) = none) ∧
    (∀ (a r : String) (st : Page.State),
       (Page.loadTokens (Page.storeTokens a r st)).accessToken = a ∧
       (Page.loadTokens (Page.storeTokens a r st)).refreshToken = r) ∧
    (∀ st : Page.State,
       (Page.loadTokens (Page.clearTokens st)).accessToken = "" ∧
       (Page.loadTokens (Page.clearTokens st)).refreshToken = "") := by
  refine ⟨?_, fun st => rfl, fun a r st => ⟨rfl, rfl⟩, fun st => ⟨rfl, rfl⟩⟩
  intro a r st st' h
  unfold Popup.storeTokens at h
  cases he : Popup.getTokenExpiry a with
  | error e => rw [he] at h; exact Except.noConfusion h
  | ok e =>
    rw [he] at h
    refine ⟨e, rfl, ?_⟩
    cases h
    rfl

/-- C9 witness: storing the demo token pair and loading it back returns
the pair with its derived 123000 ms expiry. -/
theorem token_cache_contract_witness :
    ∃ e, Popup.getTokenExpiry demoToken = Except.ok e ∧
         Popup.getStoredTokens
           { popupSt0 with auth_tokens := some ⟨demoToken, "R2", JsNum.num 123000⟩ } =
           some ⟨demoToken, "R2", e⟩ :=
  token_cache_contract.1 demoToken "R2" popupSt0
    { popupSt0 with auth_tokens := some ⟨demoToken, "R2", JsNum.num 123000⟩ }
    (by with_unfolding_all rfl)

/-- C10 counterexample: the token `a.NQ.b` has no payload segment that
decodes to a JSON object — `NQ` is base64 for the JSON number `5` — yet
`getTokenExpiry` does not throw: reading `.exp` off the number gives
`undefined`, and `undefined * 1000` is `NaN`, so the store succeeds and
persists a `NaN` expiry, where the claim requires a throw with nothing
written. -/
theorem non_object_payload_is_stored_not_thrown :
    Popup.getTokenExpiry "a.NQ.b" = Except.ok JsNum.nan ∧
    Popup.storeTokens "a.NQ.b" "r" popupSt0 =
      Except.ok { popupSt0 with auth_tokens := some ⟨"a.NQ.b", "r", JsNum.nan⟩ } := by
  constructor <;> with_unfolding_all rfl

/-- C10 (amended): `getTokenExpiry` throws exactly when the payload
segment (with the JS `"undefined"` coercion for a missing second segment)
fails base64 decoding, fails JSON parsing, or parses to JSON `null`; a
segment parsing to any other non-object JSON value yields a `NaN` expiry
without a throw.  On a throw nothing is written — the store returns the
error with the previous state untouched — and the login flow reports the
exception as an authentication failure, leaving the stored tokens
unchanged. -/
theorem store_atomic_on_token_decode_error
    (token r u p e : String) (st : Popup.State) (server : Server)
    (hthrow : Popup.getTokenExpiry token = Except.error e) :
    segmentRejected token ∧
    Popup.storeTokens token r st = Except.error e ∧
    (∀ t : String, ¬ segmentRejected t → ∃ v, Popup.getTokenExpiry t = Except.ok v) ∧
    (∀ resp : Response,
       server (HttpCall.authenticate (jsTrim u) p) = Except.ok resp →
       resp.access_token = token →
       resp.ok = true → resp.status = "ok" →
       ¬(jsTrim u = "" ∨ p = "") →
       (Popup.login u p server st).1.auth_tokens = st.auth_tokens ∧
       (Popup.login u p server st).1.statusMessage =
         some ("Authentication failed: " ++ e, "error")) := by
  refine ⟨?_, ?_, ?_, ?_⟩
  · unfold Popup.getTokenExpiry at hthrow
    unfold segmentRejected
    cases hat : atob (payloadSegment token) with
    | none => trivial
    | some decoded =>
      rw [hat] at hthrow
      simp only [] at hthrow ⊢
      cases hj : jsonParse decoded with
      | none => exact Or.inl rfl
      | some v =>
        rw [hj] at hthrow
        cases v with
        | null => exact Or.inr rfl
        | bool b => exact Except.noConfusion hthrow
        | num q => exact Except.noConfusion hthrow
        | str s => exact Except.noConfusion hthrow
        | arr l => exact Except.noConfusion hthrow
        | obj fields => exact Except.noConfusion hthrow
  · unfold Popup.storeTokens
    rw [hthrow]
  · intro t hnot
    unfold segmentRejected at hnot
    unfold Popup.getTokenExpiry
    cases hat : atob (payloadSegment t) with
    | none => rw [hat] at hnot; exact absurd trivial hnot
    | some decoded =>
      rw [hat] at hnot
      simp only [] at hnot ⊢
      cases hj : jsonParse decoded with
      | none => exact absurd (Or.inl rfl) (by rw [hj] at hnot; exact hnot)
      | some v =>
        rw [hj] at hnot
        cases v with
        | null => exact absurd (Or.inr rfl) hnot
        | bool b => exact ⟨_, rfl⟩
        | num q => exact ⟨_, rfl⟩
        | str s => exact ⟨_, rfl⟩
        | arr l => exact ⟨_, rfl⟩
        | obj fields => exact ⟨_, rfl⟩
  · intro resp hresp htok hok hst hvalid
    unfold Popup.login
    simp only [if_neg hvalid, hresp]
    rw [if_pos ⟨hok, hst⟩]
    unfold Popup.storeTokens
    rw [htok, hthrow]
    exact ⟨rfl, rfl⟩

/-- C10 witness: the token `x` has no second segment, so `atob` is fed the
string `undefined` and throws; the store errors out and a login whose
OK response carries that token reports the failure and stores nothing. -/
theorem store_atomic_on_token_decode_error_witness :
    segmentRejected "x" ∧
    Popup.storeTokens "x" "R2" popupSt0 = Except.error "InvalidCharacterError" ∧
    (Popup.login "alice" "password1" serverBadToken popupSt0).1.auth_tokens = none ∧
    (Popup.login "alice" "password1" serverBadToken popupSt0).1.statusMessage =
      some ("Authentication failed: " ++ "InvalidCharacterError", "error") := by
  have h := store_atomic_on_token_decode_error "x" "R2" "alice" "password1"
    "InvalidCharacterError" popupSt0 serverBadToken (by with_unfolding_all rfl)
  have hlogin := h.2.2.2 ⟨200, "ok", "", "x", "R2"⟩ rfl rfl rfl rfl
    (by with_unfolding_all decide)
  exact ⟨h.1, h.2.1, hlogin.1, hlogin.2⟩

/-- C1 counterexample: with an expired stored pair and a server that
rejects the refresh, the request issues the one refresh call and then
stops — no protected-resource call follows, where the claim requires
exactly one refresh call followed by exactly one protected call on every
request made with an expired token. -/
theorem expired_token_failed_refresh_no_protected_call :
    (Popup.accessProtected 1 serverRefreshFails popupStExpired).2 =
      [HttpCall.refresh "R"] ∧
    (Popup.accessProtected 1 serverRefreshFails popupStExpired).2.countP
      HttpCall.isProtectedReq = 0 := by
  constructor <;> with_unfolding_all rfl

/-- C1 (amended): on a protected-resource request with an expired stored
expiry, the client issues exactly one refresh call, followed by exactly
one protected call carrying the newly obtained access token when the
refresh response is OK with status `'ok'` and the new token's expiry
decodes — and by no further call at all otherwise; no other HTTP calls
are ever made. -/
theorem expired_token_refresh_then_retry
    (st : Popup.State) (tokens : Popup.Tokens) (now : Int) (server : Server)
    (htok : st.auth_tokens = some tokens)
    (hexp : jsGtNum now tokens.access_token_expiry = true) :
    (Popup.accessProtected now server st).2 =
      HttpCall.refresh tokens.refresh_token ::
        (match server (HttpCall.refresh tokens.refresh_token) with
         | Except.ok resp =>
           if (resp.ok = true) ∧ resp.status = "ok" then
             match Popup.getTokenExpiry resp.access_token with
             | Except.ok _ => [HttpCall.protectedReq ("Bearer " ++ resp.access_token)]
             | Except.error _ => []
           else []
         | Except.error _ => []) := by
  unfold Popup.accessProtected Popup.getAccessToken Popup.refreshAccessToken
  rw [htok]
  simp only []
  rw [if_pos hexp]
  cases hc : server (HttpCall.refresh tokens.refresh_token) with
  | error e => rfl
  | ok resp =>
    simp only []
    by_cases hok : (resp.ok = true) ∧ resp.status = "ok"
    · simp only [if_pos hok]
      unfold Popup.storeTokens
      cases he : Popup.getTokenExpiry resp.access_token with
      | error e => rfl
      | ok e =>
        simp only []
        cases hp : server (HttpCall.protectedReq ("Bearer " ++ resp.access_token)) with
        | error e2 => rfl
        | ok r2 =>
          simp only []
          by_cases hok2 : (r2.ok = true) ∧ r2.status = "ok"
          · simp only [if_pos hok2]; rfl
          · simp only [if_neg hok2]; rfl
    · simp only [if_neg hok]

/-- C1 witness: with the expired pair and an all-OK server, the trace is
the refresh call followed by the protected call with the new token. -/
theorem expired_token_refresh_then_retry_witness :
    (Popup.accessProtected 1 serverAllOk popupStExpired).2 =
      [HttpCall.refresh "R", HttpCall.protectedReq ("Bearer " ++ demoToken)] := by
  rw [expired_token_refresh_then_retry popupStExpired ⟨"A", "R", JsNum.num 0⟩ 1 serverAllOk
    rfl (by with_unfolding_all rfl)]
  with_unfolding_all rfl

/-- C7 counterexample: in the extension, a failed refresh does not destroy
the stored pair — after an expired-token request whose refresh the server
rejects, the pair is still stored, where the claim requires it destroyed
and the client logged out. -/
theorem popup_refresh_failure_keeps_stored_pair :
    (Popup.accessProtected 1 serverRefreshFails popupStExpired).1.auth_tokens =
      some ⟨"A", "R", JsNum.num 0⟩ := by
  with_unfolding_all rfl

/-- C7 (amended): a failed refresh attempt is never retried — the refresh
endpoint is hit exactly once per attempt — and in the extension variant a
failure leaves the stored pair unchanged (the error is surfaced to the
caller), while in the page variant a failure with a refresh token present
clears the stored pair, forcing the logged-out state. -/
theorem refresh_failure_is_terminal :
    (∀ (rt : String) (server : Server) (st : Popup.State),
       (Popup.refreshAccessToken rt server st).2.2 = [HttpCall.refresh rt] ∧
       (∀ e, (Popup.refreshAccessToken rt server st).1 = Except.error e →
          (Popup.refreshAccessToken rt server st).2.1 = st)) ∧
    (∀ (server : PageServer) (st : Page.State),
       st.refreshToken ≠ "" →
       (Page.refreshAccessToken server st).1 = false →
       (Page.refreshAccessToken server st).2.1 = Page.clearTokens st) := by
  constructor
  · intro rt server st
    unfold Popup.refreshAccessToken
    simp only []
    cases hc : server (HttpCall.refresh rt) with
    | error e => exact ⟨rfl, fun e2 _ => rfl⟩
    | ok resp =>
      simp only []
      by_cases hok : (resp.ok = true) ∧ resp.status = "ok"
      · simp only [if_pos hok]
        cases hst : Popup.storeTokens resp.access_token resp.refresh_token st with
        | error e => exact ⟨rfl, fun e2 _ => rfl⟩
        | ok st' =>
          exact ⟨rfl, fun e2 he => Except.noConfusion he⟩
      · simp only [if_neg hok]
        exact ⟨trivial, fun _ _ => trivial⟩
  · intro server st hne hfalse
    unfold Page.refreshAccessToken at hfalse ⊢
    rw [if_neg hne] at hfalse ⊢
    simp only [] at hfalse ⊢
    cases hc : server (PageCall.refresh st.refreshToken) with
    | error e => rfl
    | ok resp =>
      rw [hc] at hfalse
      simp only [] at hfalse ⊢
      by_cases hok : resp.ok = true
      · rw [if_pos hok] at hfalse
        exact Bool.noConfusion hfalse
      · rw [if_neg hok]

/-- C7 witness: the failing refresh issues one call and leaves the
extension state unchanged, and clears the page state. -/
theorem refresh_failure_is_terminal_witness :
    (Popup.refreshAccessToken "R" serverRefreshFails popupStExpired).2.2 =
      [HttpCall.refresh "R"] ∧
    (Popup.refreshAccessToken "R" serverRefreshFails popupStExpired).2.1 =
      popupStExpired ∧
    (Page.refreshAccessToken pageServerRefreshFails pageStTok).2.1 =
      Page.clearTokens pageStTok :=
  ⟨(refresh_failure_is_terminal.1 "R" serverRefreshFails popupStExpired).1,
   (refresh_failure_is_terminal.1 "R" serverRefreshFails popupStExpired).2
     ("Failed to refresh token: " ++ "Invalid refresh token.") (by with_unfolding_all rfl),
   refresh_failure_is_terminal.2 pageServerRefreshFails pageStTok
     (by decide) (by with_unfolding_all rfl)⟩

/-- C2 counterexample: a 401 received while no refresh token is stored
leads to zero calls to the refresh endpoint — the wrapper goes straight
to error and logout — where the claim requires exactly one refresh call
on every 401. -/
theorem unauth_401_without_refresh_token_no_refresh_call :
    (Page.authenticatedFetch "u" pageServer401 pageStNoRefresh).2.2 =
      [PageCall.request "u" ("Bearer " ++ "A")] ∧
    (Page.authenticatedFetch "u" pageServer401 pageStNoRefresh).2.2.countP
      PageCall.isRefresh = 0 := by
  constructor <;> with_unfolding_all rfl

/-- C2 (amended): the wrapper always sends the request with
`Authorization: Bearer <accessToken>` first; a non-401 response (or a
thrown fetch) produces no refresh call and no retry; on a 401 with a
refresh token stored, the refresh endpoint is called exactly once and, on
success, the original request is retried exactly once with the new access
token, while on failure the wrapper surfaces an error and forces logout
with no retry; on a 401 with no stored refresh token it skips the refresh
endpoint entirely and goes straight to error and logout. -/
theorem authenticated_fetch_behavior (url : String) (server : PageServer) (st : Page.State) :
    ((Page.authenticatedFetch url server st).2.2.head? =
       some (PageCall.request url ("Bearer " ++ st.accessToken))) ∧
    (∀ resp, server (PageCall.request url ("Bearer " ++ st.accessToken)) = Except.ok resp →
       resp.httpStatus ≠ 401 →
       Page.authenticatedFetch url server st =
         (Except.ok resp, st, [PageCall.request url ("Bearer " ++ st.accessToken)])) ∧
    (∀ e, server (PageCall.request url ("Bearer " ++ st.accessToken)) = Except.error e →
       Page.authenticatedFetch url server st =
         (Except.error e, st, [PageCall.request url ("Bearer " ++ st.accessToken)])) ∧
    (∀ resp, server (PageCall.request url ("Bearer " ++ st.accessToken)) = Except.ok resp →
       resp.httpStatus = 401 → st.refreshToken ≠ "" →
       (∀ rresp, server (PageCall.refresh st.refreshToken) = Except.ok rresp →
          (rresp.ok = true →
             (Page.authenticatedFetch url server st).2.1 =
               Page.storeTokens rresp.access_token rresp.refresh_token st ∧
             (Page.authenticatedFetch url server st).2.2 =
               [PageCall.request url ("Bearer " ++ st.accessToken),
                PageCall.refresh st.refreshToken,
                PageCall.request url ("Bearer " ++ rresp.access_token)]) ∧
          (rresp.ok = false →
             Page.authenticatedFetch url server st =
               (Except.error "Authentication required", Page.logout st,
                [PageCall.request url ("Bearer " ++ st.accessToken),
                 PageCall.refresh st.refreshToken]))) ∧
       (∀ e, server (PageCall.refresh st.refreshToken) = Except.error e →
          Page.authenticatedFetch url server st =
            (Except.error "Authentication required", Page.logout st,
             [PageCall.request url ("Bearer " ++ st.accessToken),
              PageCall.refresh st.refreshToken]))) ∧
    (∀ resp, server (PageCall.request url ("Bearer " ++ st.accessToken)) = Except.ok resp →
       resp.httpStatus = 401 → st.refreshToken = "" →
       Page.authenticatedFetch url server st =
         (Except.error "Authentication required", Page.logout st,
          [PageCall.request url ("Bearer " ++ st.accessToken)])) := by
  refine ⟨?_, ?_, ?_, ?_, ?_⟩
  · unfold Page.authenticatedFetch
    simp only []
    cases hc : server (PageCall.request url ("Bearer " ++ st.accessToken)) with
    | error e => rfl
    | ok resp =>
      simp only []
      by_cases h401 : resp.httpStatus = 401
      · simp only [if_pos h401]
        unfold Page.refreshAccessToken
        simp only []
        by_cases hrt : st.refreshToken = ""
        · simp only [if_pos hrt]; rfl
        · simp only [if_neg hrt]
          cases hr : server (PageCall.refresh st.refreshToken) with
          | error e => rfl
          | ok rresp =>
            simp only []
            by_cases hro : rresp.ok = true
            · simp only [if_pos hro, Page.storeTokens]
              cases hc2 : server (PageCall.request url ("Bearer " ++ rresp.access_token)) <;>
                rfl
            · simp only [if_neg hro]; rfl
      · simp only [if_neg h401]; rfl
  · intro resp hresp h401
    unfold Page.authenticatedFetch
    simp only []
    rw [hresp]
    simp only [if_neg h401]
  · intro e hresp
    unfold Page.authenticatedFetch
    simp only []
    rw [hresp]
  · intro resp hresp h401 hrt
    constructor
    · intro rresp hr
      constructor
      · intro hro
        unfold Page.authenticatedFetch Page.refreshAccessToken
        simp only []
        rw [hresp]
        simp only [if_pos h401, if_neg hrt]
        rw [hr]
        simp only [if_pos hro, Page.storeTokens]
        cases hc2 : server (PageCall.request url ("Bearer " ++ rresp.access_token)) <;>
          exact ⟨rfl, rfl⟩
      · intro hro
        have hro' : ¬(rresp.ok = true) := by rw [hro]; exact Bool.false_ne_true
        unfold Page.authenticatedFetch Page.refreshAccessToken
        simp only []
        rw [hresp]
        simp only [if_pos h401, if_neg hrt]
        rw [hr]
        simp only [if_neg hro']
        rfl
    · intro e hr
      unfold Page.authenticatedFetch Page.refreshAccessToken
      simp only []
      rw [hresp]
      simp only [if_pos h401, if_neg hrt]
      rw [hr]
      rfl
  · intro resp hresp h401 hrt
    unfold Page.authenticatedFetch Page.refreshAccessToken
    simp only []
    rw [hresp]
    simp only [if_pos h401, if_pos hrt]

/-- C2 witness: the three 401 scenarios at concrete states and servers —
refresh-and-retry with the new bearer token, refresh failure forcing
logout, and missing refresh token skipping the refresh endpoint. -/
theorem authenticated_fetch_behavior_witness :
    (Page.authenticatedFetch "u" pageServer401ThenOk pageStTok).2.2 =
      [PageCall.request "u" ("Bearer " ++ "A"), PageCall.refresh "R",
       PageCall.request "u" ("Bearer " ++ "NA")] ∧
    Page.authenticatedFetch "u" pageServerRefreshFails pageStTok =
      (Except.error "Authentication required", Page.logout pageStTok,
       [PageCall.request "u" ("Bearer " ++ "A"), PageCall.refresh "R"]) ∧
    Page.authenticatedFetch "u" pageServer401 pageStNoRefresh =
      (Except.error "Authentication required", Page.logout pageStNoRefresh,
       [PageCall.request "u" ("Bearer " ++ "A")]) := by
  refine ⟨?_, ?_, ?_⟩
  · exact ((((authenticated_fetch_behavior "u" pageServer401ThenOk pageStTok).2.2.2.1
      ⟨401, "error", "expired", "", ""⟩ (by with_unfolding_all rfl) rfl (by decide)).1
      ⟨200, "ok", "", "NA", "NR"⟩ (by with_unfolding_all rfl)).1
      (by with_unfolding_all rfl)).2
  · exact (((authenticated_fetch_behavior "u" pageServerRefreshFails pageStTok).2.2.2.1
      ⟨401, "error", "expired", "", ""⟩ (by with_unfolding_all rfl) rfl (by decide)).1
      ⟨400, "error", "bad refresh", "", ""⟩ (by with_unfolding_all rfl)).2
      (by with_unfolding_all rfl)
  · exact (authenticated_fetch_behavior "u" pageServer401 pageStNoRefresh).2.2.2.2
      ⟨401, "error", "unauthorized", "", ""⟩ (by with_unfolding_all rfl) rfl rfl

/-- Helper: a popup refresh leaves the stored entry alone or replaces it
wholesale from one response. -/
theorem popup_refresh_wholesale (rt : String) (server : Server) (st : Popup.State) :
    popupPairWholesale server st (Popup.refreshAccessToken rt server st).2.1 := by
  unfold Popup.refreshAccessToken
  simp only []
  cases hc : server (HttpCall.refresh rt) with
  | error e => exact Or.inl rfl
  | ok resp =>
    simp only []
    by_cases hok : (resp.ok = true) ∧ resp.status = "ok"
    · simp only [if_pos hok]
      cases hst : Popup.storeTokens resp.access_token resp.refresh_token st with
      | error e => exact Or.inl rfl
      | ok st' =>
        unfold Popup.storeTokens at hst
        cases he : Popup.getTokenExpiry resp.access_token with
        | error e => rw [he] at hst; exact Except.noConfusion hst
        | ok ev =>
          rw [he] at hst
          have hst' := Except.ok.inj hst
          subst hst'
          exact Or.inr (Or.inr ⟨HttpCall.refresh rt, resp, ev, hc, he, rfl⟩)
    · simp only [if_neg hok]
      exact Or.inl rfl

/-- Helper: obtaining an access token leaves the stored entry alone or
replaces it wholesale. -/
theorem popup_getAccessToken_wholesale (now : Int) (server : Server) (st : Popup.State) :
    popupPairWholesale server st (Popup.getAccessToken now server st).2.1 := by
  unfold Popup.getAccessToken
  cases htok : st.auth_tokens with
  | none => exact Or.inl rfl
  | some tokens =>
    simp only []
    by_cases hexp : jsGtNum now tokens.access_token_expiry = true
    · rw [if_pos hexp]
      have h := popup_refresh_wholesale tokens.refresh_token server st
      rcases hr : Popup.refreshAccessToken tokens.refresh_token server st with ⟨res, st', calls⟩
      rw [hr] at h
      simp only [] at h
      cases res with
      | error e => exact h
      | ok nt => exact h
    · rw [if_neg hexp]
      exact Or.inl rfl

/-- Helper: a protected-resource request leaves the stored entry alone or
replaces it wholesale. -/
theorem popup_accessProtected_wholesale (now : Int) (server : Server) (st : Popup.State) :
    popupPairWholesale server st (Popup.accessProtected now server st).1 := by
  unfold Popup.accessProtected
  have h := popup_getAccessToken_wholesale now server st
  rcases hg : Popup.getAccessToken now server st with ⟨res, st', calls⟩
  rw [hg] at h
  simp only [] at h
  cases res with
  | error e => exact h
  | ok tok =>
    simp only []
    cases hc : server (HttpCall.protectedReq ("Bearer " ++ tok)) with
    | error e => exact h
    | ok r =>
      simp only []
      by_cases hok : (r.ok = true) ∧ r.status = "ok"
      · simp only [if_pos hok]; exact h
      · simp only [if_neg hok]; exact h

/-- Helper: the popup login leaves the stored entry alone or replaces it
wholesale from the authenticate response. -/
theorem popup_login_wholesale (u p : String) (server : Server) (st : Popup.State) :
    popupPairWholesale server st (Popup.login u p server st).1 := by
  unfold Popup.login
  simp only []
  by_cases hv : jsTrim u = "" ∨ p = ""
  · simp only [if_pos hv]; exact Or.inl rfl
  · simp only [if_neg hv]
    cases hc : server (HttpCall.authenticate (jsTrim u) p) with
    | error e => exact Or.inl rfl
    | ok resp =>
      simp only []
      by_cases hok : (resp.ok = true) ∧ resp.status = "ok"
      · simp only [if_pos hok]
        cases hst : Popup.storeTokens resp.access_token resp.refresh_token st with
        | error e => exact Or.inl rfl
        | ok st' =>
          unfold Popup.storeTokens at hst
          cases he : Popup.getTokenExpiry resp.access_token with
          | error e => rw [he] at hst; exact Except.noConfusion hst
          | ok ev =>
            rw [he] at hst
            have hst' := Except.ok.inj hst
            subst hst'
            exact Or.inr (Or.inr ⟨HttpCall.authenticate (jsTrim u) p, resp, ev, hc, he, rfl⟩)
      · simp only [if_neg hok]
        exact Or.inl rfl

/-- Helper: the popup register never touches the stored token entry. -/
theorem popup_register_wholesale (u p : String) (server : Server) (st : Popup.State) :
    popupPairWholesale server st (Popup.register u p server st).1 := by
  unfold Popup.register
  simp only []
  by_cases hv : jsTrim u = "" ∨ p = ""
  · simp only [if_pos hv]; exact Or.inl rfl
  · simp only [if_neg hv]
    by_cases hlen : p.length < 8
    · simp only [if_pos hlen]; exact Or.inl rfl
    · simp only [if_neg hlen]
      cases hc : server (HttpCall.register (jsTrim u) p) with
      | error e => exact Or.inl rfl
      | ok resp =>
        simp only []
        by_cases hok : (resp.ok = true) ∧ resp.status = "ok"
        · simp only [if_pos hok]; exact Or.inl rfl
        · simp only [if_neg hok]; exact Or.inl rfl

/-- Helper: a page refresh keeps, clears, or wholesale-replaces the two
stored token keys. -/
theorem page_refresh_wholesale (server : PageServer) (st : Page.State) :
    pagePairWholesale server st (Page.refreshAccessToken server st).2.1 := by
  unfold Page.refreshAccessToken
  simp only []
  by_cases hrt : st.refreshToken = ""
  · simp only [if_pos hrt]; exact Or.inl ⟨rfl, rfl⟩
  · simp only [if_neg hrt]
    cases hc : server (PageCall.refresh st.refreshToken) with
    | error e => exact Or.inr (Or.inl ⟨rfl, rfl⟩)
    | ok resp =>
      simp only []
      by_cases hro : resp.ok = true
      · simp only [if_pos hro]
        exact Or.inr (Or.inr ⟨PageCall.refresh st.refreshToken, resp, hc, rfl, rfl⟩)
      · simp only [if_neg hro]
        exact Or.inr (Or.inl ⟨rfl, rfl⟩)

/-- Helper: the wrapped authenticated fetch keeps, clears, or
wholesale-replaces the two stored token keys. -/
theorem page_authfetch_wholesale (url : String) (server : PageServer) (st : Page.State) :
    pagePairWholesale server st (Page.authenticatedFetch url server st).2.1 := by
  unfold Page.authenticatedFetch
  simp only []
  cases hc : server (PageCall.request url ("Bearer " ++ st.accessToken)) with
  | error e => exact Or.inl ⟨rfl, rfl⟩
  | ok resp =>
    simp only []
    by_cases h401 : resp.httpStatus = 401
    · simp only [if_pos h401]
      have h := page_refresh_wholesale server st
      rcases hr : Page.refreshAccessToken server st with ⟨b, st', calls⟩
      rw [hr] at h
      simp only [] at h
      cases b with
      | true =>
        simp only []
        cases hc2 : server (PageCall.request url ("Bearer " ++ st'.accessToken)) with
        | error e => exact h
        | ok r2 => exact h
      | false => exact Or.inr (Or.inl ⟨rfl, rfl⟩)
    · simp only [if_neg h401]
      exact Or.inl ⟨rfl, rfl⟩

/-- Helper: the page login keeps or wholesale-replaces the two stored
token keys. -/
theorem page_login_wholesale (u p : String) (server : PageServer) (st : Page.State) :
    pagePairWholesale server st (Page.login u p server st).2.1 := by
  unfold Page.login
  simp only []
  cases hc : server (PageCall.authenticate u p) with
  | error e => exact Or.inl ⟨rfl, rfl⟩
  | ok data =>
    simp only []
    by_cases hro : data.ok = true
    · simp only [if_pos hro]
      exact Or.inr (Or.inr ⟨PageCall.authenticate u p, data, hc, rfl, rfl⟩)
    · simp only [if_neg hro]
      exact Or.inl ⟨rfl, rfl⟩

/-- Helper: the page register never touches the stored token keys. -/
theorem page_register_wholesale (u p : String) (server : PageServer) (st : Page.State) :
    pagePairWholesale server st (Page.register u p server st).2.1 := by
  unfold Page.register
  simp only []
  cases hc : server (PageCall.register u p) with
  | error e => exact Or.inl ⟨rfl, rfl⟩
  | ok resp => exact Or.inl ⟨rfl, rfl⟩

/-- C8: at most one token pair is ever stored (structurally, the single
`auth_tokens` entry in the extension and the one `accessToken` /
`refreshToken` key pair in the page), and every client operation either
leaves it unchanged, deletes it wholesale, or replaces it wholesale with
both tokens of a single server response (in the extension, together with
the expiry derived from that response's access token) — never a partial
update. -/
theorem token_pair_replaced_wholesale :
    (∀ (op : PopupOp) (server : Server) (st : Popup.State),
       popupPairWholesale server st (runPopupOp op server st).1) ∧
    (∀ (op : PageOp) (server : PageServer) (st : Page.State),
       pagePairWholesale server st (runPageOp op server st).1) := by
  constructor
  · intro op server st
    cases op with
    | register u p => exact popup_register_wholesale u p server st
    | login u p => exact popup_login_wholesale u p server st
    | logout => exact Or.inr (Or.inl rfl)
    | accessProtected now => exact popup_accessProtected_wholesale now server st
  · intro op server st
    cases op with
    | register u p => exact page_register_wholesale u p server st
    | login u p => exact page_login_wholesale u p server st
    | logout => exact Or.inr (Or.inl ⟨rfl, rfl⟩)
    | loadTokens => exact Or.inl ⟨rfl, rfl⟩
    | refreshTokens => exact page_refresh_wholesale server st
    | authFetch url => exact page_authfetch_wholesale url server st
